import Mathlib

/-!
Verification of the Newgrounds.io client session state machine, as emitted
by the two (near-identical) JavaScript class partials in
`src/generators/javascript/partials/objects/Session.js` and the unnamed
ES5-style partial. The state machine is shallowly embedded: the mutable
`this` object becomes an explicit `Session` record, the single
`localStorage` cell keyed by `storageKey` becomes an explicit `Storage`
value threaded through every operation, JavaScript `Date` arithmetic in
milliseconds becomes `Int`, and each asynchronous remote dispatch
(`executeComponent` / `executeQueue`) is recorded as a `Call` value in the
operation's result rather than performed. Completion handlers
(`_onStartSession`, `_onCheckSession`, `_onEndSession`, and the queue
callback built inside `endSession`) are separate pure functions applied to
an explicit response value. A JavaScript `TypeError` (reading a property
of `undefined`) is modelled by an `Option` result being `none`.
-/

namespace Ngio

/-- The `NewgroundsIO.SessionState` status codes referenced by the partial. -/
inductive SessionState where
  | SESSION_UNINITIALIZED
  | WAITING_FOR_SERVER
  | WAITING_FOR_USER
  | LOGIN_REQUIRED
  | LOGIN_SUCCESSFUL
  | LOGIN_CANCELLED
  | LOGIN_FAILED
  | USER_LOGGED_OUT
  | SERVER_UNAVAILABLE
  | EXCEEDED_MAX_ATTEMPTS
deriving DecidableEq, Repr

/-- The polling-mode strings the partial assigns to `this.mode`. -/
inductive Mode where
  | «new»
  | check
  | wait
  | valid
  | expired
deriving DecidableEq, Repr

/-- A remote dispatch performed through the attached core: either one
`executeComponent` of the named component, or one `executeQueue` of the
listed queued components (in queueing order). -/
inductive Call where
  | executeComponent (component : String)
  | executeQueue (components : List String)
deriving DecidableEq, Repr

/-- The single `localStorage` cell under the session's `storageKey`:
`none` when the key was never written, `some v` after `setItem` stored the
string `v` (JavaScript coerces a `null` argument to the string "null"). -/
abbrev Storage := Option String

/-- The session object's fields. Private fields (`#status`, `#lastStatus`,
`#statusChanged`, `#lastUpdate`, `#canUpdate`, `#mode`, `#totalAttempts`,
`#maxAttempts`, `#uri_id`, `#saved_id`) and the public object-model fields
the partial writes (`id`, `remember`, `user`, `passport_url`, `expired`)
are flattened into one record. The user record is opaque to the state
machine, so it is modelled by a numeric handle. `hasCore` models whether a
`NewgroundsIO.Core` instance is attached (`this.#ngioCore`). -/
structure Session where
  status : SessionState
  lastStatus : Option SessionState
  statusChanged : Bool
  lastUpdate : Int
  canUpdate : Bool
  mode : Mode
  totalAttempts : Nat
  maxAttempts : Nat
  uri_id : Option String
  saved_id : Option String
  id : Option String
  remember : Bool
  user : Option Nat
  passport_url : Option String
  expired : Bool
  hasCore : Bool
deriving DecidableEq, Repr

/-- JavaScript truthiness of a `string | null` value: `null` and the empty
string are falsy, every other string is truthy. -/
def truthyStr : Option String → Bool
  | none => false
  | some s => s ≠ ""

/-- JavaScript string coercion applied by `localStorage.setItem` to a
`string | null` value: `null` becomes the string "null". -/
def jsStringOf : Option String → String
  | none => "null"
  | some v => v

/-- A freshly constructed session: the initializers of the private fields
in the partial (status `SESSION_UNINITIALIZED`, `lastStatus` null,
`statusChanged` false, `lastUpdate` thirty seconds in the past so the
first `update()` acts immediately, `canUpdate` true, mode "expired",
`totalAttempts` 0, `maxAttempts` 5, ids null) together with the generated
object model's null/false defaults for the public fields. `now0` is the
construction time in milliseconds. -/
def initSession (now0 : Int) (hasCore : Bool) : Session :=
  { status := SessionState.SESSION_UNINITIALIZED
    lastStatus := none
    statusChanged := false
    lastUpdate := now0 - 30000
    canUpdate := true
    mode := Mode.expired
    totalAttempts := 0
    maxAttempts := 5
    uri_id := none
    saved_id := none
    id := none
    remember := false
    user := none
    passport_url := none
    expired := false
    hasCore := hasCore }

/-- Method `resetSession()`: clears `#uri_id`, `#saved_id`, `remember`, `user`
and `expired`, and writes `null` to storage under `storageKey` (stored as
the string "null" by JavaScript coercion). Does not touch `id`, `status`,
`mode` or the retry counters. -/
def resetSession (s : Session) (_store : Storage) : Session × Storage :=
  ({ s with uri_id := none, saved_id := none, remember := false,
            user := none, expired := false },
   some "null")

/-- Method `openLoginPage()`: with no truthy `passport_url` it only warns and
returns; otherwise it sets status `WAITING_FOR_USER` and mode "check"
(the `window.open` side effect has no state-machine content). -/
def openLoginPage (s : Session) : Session :=
  if truthyStr s.passport_url then
    { s with status := SessionState.WAITING_FOR_USER, mode := Mode.check }
  else s

/-- Method `startSession()`: sets `#canUpdate` false, calls `resetSession()`,
sets status `WAITING_FOR_SERVER`, and executes the `App.startSession`
component. Models the behaviour with a core attached (without one the
JavaScript throws at `getComponent`). -/
def startSession (s : Session) (store : Storage) :
    Session × Storage × List Call :=
  let s1 := { s with canUpdate := false }
  let rs := resetSession s1 store
  ({ rs.1 with status := SessionState.WAITING_FOR_SERVER }, rs.2,
   [Call.executeComponent "App.startSession"])

/-- Method `checkSession()`: sets `#canUpdate` false and executes the
`App.checkSession` component. -/
def checkSession (s : Session) : Session × List Call :=
  ({ s with canUpdate := false }, [Call.executeComponent "App.checkSession"])

/-- Method `endSession(callback, thisArg)` up to its asynchronous completion:
sets `#canUpdate` false, queues the `App.endSession` component and then
the `App.startSession` component, and executes the queue as one batch.
The batch's completion callback is modelled separately by
`endSessionBatchHandler`. -/
def endSession (s : Session) : Session × List Call :=
  ({ s with canUpdate := false },
   [Call.executeQueue ["App.endSession", "App.startSession"]])

/-- Method `logOut(callback, thisArg)`: sets mode "wait" then delegates to
`endSession`. -/
def logOut (s : Session) : Session × List Call :=
  endSession { s with mode := Mode.wait }

/-- Method `cancelLogin(newStatus)`: fires `endSession()` (its batch dispatch is
returned as this operation's emitted call), defaults the status argument
to `LOGIN_CANCELLED` when undefined, calls `resetSession()`, clears `id`,
sets the given status, resets `#totalAttempts` to 0, sets `#mode` "new",
and rewinds `#lastUpdate` thirty seconds so the next `update()` is
immediately eligible. `now` is the current time in milliseconds. -/
def cancelLogin (s : Session) (store : Storage)
    (newStatus : Option SessionState) (now : Int) :
    Session × Storage × List Call :=
  let es := endSession s
  let ns := newStatus.getD SessionState.LOGIN_CANCELLED
  let rs := resetSession es.1 store
  ({ rs.1 with id := none, status := ns, totalAttempts := 0,
               mode := Mode.«new», lastUpdate := now - 30000 },
   rs.2, es.2)

/-- The result of one `update()` call: the new session state, the storage
cell, whether the caller's callback was invoked, and the remote calls
dispatched (at most one). -/
structure UpdateResult where
  session : Session
  store : Storage
  invoked : Bool
  calls : List Call
deriving DecidableEq, Repr

/-- The opening block of `update()`: clear `#statusChanged`, then if
`#lastStatus != this.status` (JavaScript loose inequality, true in
particular when `#lastStatus` is still null) set `#statusChanged` true,
record the status in `#lastStatus`, and invoke the callback. The returned
Bool is whether the callback was invoked. -/
def observeStatus (s : Session) : Session × Bool :=
  let s1 := { s with statusChanged := false }
  if s1.lastStatus ≠ some s1.status then
    ({ s1 with statusChanged := true, lastStatus := some s1.status }, true)
  else (s1, false)

/-- The `SERVER_UNAVAILABLE` block of `update()`: with too many failed
attempts set status `EXCEEDED_MAX_ATTEMPTS`, otherwise set status back to
`SESSION_UNINITIALIZED` and increment `#totalAttempts`. -/
def retryStep (s : Session) : Session :=
  if s.status = SessionState.SERVER_UNAVAILABLE then
    if s.maxAttempts ≤ s.totalAttempts then
      { s with status := SessionState.EXCEEDED_MAX_ATTEMPTS }
    else
      { s with status := SessionState.SESSION_UNINITIALIZED,
               totalAttempts := s.totalAttempts + 1 }
  else s

/-- The `SESSION_UNINITIALIZED` block of `update()`: load `#saved_id` from
storage; if `#uri_id` is truthy set `id` to it, else if `#saved_id` is
truthy set `id` to that; then set mode "check" when `this.id` is truthy
and not the string "null", else mode "new". -/
def initStep (s : Session) (store : Storage) : Session :=
  if s.status = SessionState.SESSION_UNINITIALIZED then
    let s1 := { s with saved_id := store }
    let s2 :=
      if truthyStr s1.uri_id then { s1 with id := s1.uri_id }
      else if truthyStr s1.saved_id then { s1 with id := s1.saved_id }
      else s1
    { s2 with mode :=
        if truthyStr s2.id = true ∧ s2.id ≠ some "null" then Mode.check
        else Mode.«new» }
  else s

/-- The closing `switch (this.mode)` of `update()`: mode "new" sets mode
"wait" and calls `startSession()`; mode "check" sets mode "wait" and
calls `checkSession()`; any other mode dispatches nothing. -/
def dispatchStep (s : Session) (store : Storage) :
    Session × Storage × List Call :=
  match s.mode with
  | Mode.«new» => startSession { s with mode := Mode.wait } store
  | Mode.check =>
    let cs := checkSession { s with mode := Mode.wait }
    (cs.1, store, cs.2)
  | _ => (s, store, [])

/-- Method `update(callback, thisArg)`: run the status-observation block; return
if `#canUpdate` is false or mode is "wait"; with no core attached report
the error, set `#canUpdate` false and return; run the
`SERVER_UNAVAILABLE` retry block and the `SESSION_UNINITIALIZED`
initialization block; return if fewer than 5000 ms elapsed since
`#lastUpdate`; otherwise set `#lastUpdate` to now and dispatch on the
mode. `now` is the current time in milliseconds. -/
def update (s0 : Session) (store : Storage) (now : Int) : UpdateResult :=
  let ob := observeStatus s0
  let s := ob.1
  if s.canUpdate = false ∨ s.mode = Mode.wait then
    ⟨s, store, ob.2, []⟩
  else if s.hasCore = false then
    ⟨{ s with canUpdate := false }, store, ob.2, []⟩
  else
    let s1 := initStep (retryStep s) store
    if now - s1.lastUpdate < 5000 then
      ⟨s1, store, ob.2, []⟩
    else
      let d := dispatchStep { s1 with lastUpdate := now } store
      ⟨d.1, d.2.1, ob.2, d.2.2⟩

/-- The payload record under `result.session` in an `App.startSession`
response: the fields `_onStartSession` reads. Either field may be absent
(`none` models JavaScript `undefined`/`null`, which assigns harmlessly). -/
structure SessionPayload where
  id : Option String
  passport_url : Option String
deriving DecidableEq, Repr

/-- One element of an `App.startSession` result: `objectTag` models the
`__object` field (`none` when absent) and `session` the `session` field
(`none` when absent — reading `.id` off it would throw). -/
structure ResultRecord where
  objectTag : Option String
  session : Option SessionPayload
deriving DecidableEq, Repr

/-- The dynamic shape of `response.result` as `_onStartSession` sees it:
either a single record or an array (whose elements may be null). -/
inductive StartResult where
  | single (rec : ResultRecord)
  | array (recs : List (Option ResultRecord))
deriving DecidableEq, Repr

/-- A response delivered to `_onStartSession` (and to the `endSession`
batch callback): `success` and the `result` payload. -/
structure StartResponse where
  success : Bool
  result : StartResult
deriving DecidableEq, Repr

/-- The array scan inside `_onStartSession`: the first element that is
truthy, has a truthy `__object` field, and whose `__object` equals
"App.startSession", replaces `result`; with no match `result` stays the
whole array. -/
def scanStartResult : List (Option ResultRecord) → Option ResultRecord
  | [] => none
  | none :: rest => scanStartResult rest
  | some rec :: rest =>
    if truthyStr rec.objectTag = true ∧ rec.objectTag = some "App.startSession" then
      some rec
    else scanStartResult rest

/-- The record `_onStartSession` ends up reading `session` from: the
single record itself, or the tagged element found by the array scan
(`none` when the scan finds nothing, leaving `result` bound to the whole
array, off which `session` is undefined). -/
def selectStartRecord : StartResult → Option ResultRecord
  | StartResult.single rec => some rec
  | StartResult.array recs => scanStartResult recs

/-- Handler `_onStartSession(response)`: on `response.success === true` it selects
the result record, stores `result.session.id` and
`result.session.passport_url`, sets status `LOGIN_REQUIRED` and mode
"wait"; on failure it sets status `SERVER_UNAVAILABLE`; either way it
then sets `#canUpdate` true. `none` models the JavaScript `TypeError`
thrown when `result.session` is undefined (no tagged element was found,
or the selected record has no `session` field): the handler aborts before
reaching the status writes. -/
def onStartSession (s : Session) (r : StartResponse) : Option Session :=
  if r.success = true then
    match selectStartRecord r.result with
    | some rec =>
      match rec.session with
      | some payload =>
        some { s with id := payload.id, passport_url := payload.passport_url,
                      status := SessionState.LOGIN_REQUIRED, mode := Mode.wait,
                      canUpdate := true }
      | none => none
    | none => none
  else
    some { s with status := SessionState.SERVER_UNAVAILABLE, canUpdate := true }

/-- The `result.session` record of an `App.checkSession` response:
`expired`, `user` (null or a user record) and `remember`. -/
structure CheckSessionRec where
  expired : Bool
  user : Option Nat
  remember : Bool
deriving DecidableEq, Repr

/-- The `result` of an `App.checkSession` response: `success`, the
`error.code` read on failure, and the `session` record read on success. -/
structure CheckResult where
  success : Bool
  errorCode : Int
  session : CheckSessionRec
deriving DecidableEq, Repr

/-- A response delivered to `_onCheckSession`. -/
structure CheckResponse where
  success : Bool
  result : CheckResult
deriving DecidableEq, Repr

/-- Handler `_onCheckSession(response)`: on call-level failure set status
`SERVER_UNAVAILABLE`; on call-level success with `result.success` false
clear `id` and call `cancelLogin` with `LOGIN_CANCELLED` when
`result.error.code === 111` and `LOGIN_FAILED` otherwise (the
fire-and-forget batch `cancelLogin` dispatches is this handler's emitted
call); with the session expired call `resetSession()`, clear `id` and set
status `SESSION_UNINITIALIZED`; with a non-null user store it, set status
`LOGIN_SUCCESSFUL` and mode "valid", and when `result.session.remember`
holds copy `id` into `#saved_id`, set `remember` and persist `id` to
storage; otherwise set mode "check". In every branch the handler finally
sets `#canUpdate` true. `now` is the current time in milliseconds. -/
def onCheckSession (s : Session) (store : Storage) (r : CheckResponse)
    (now : Int) : Session × Storage × List Call :=
  if r.success = true then
    if r.result.success = false then
      let s1 := { s with id := none }
      let cl := cancelLogin s1 store
        (some (if r.result.errorCode = 111 then SessionState.LOGIN_CANCELLED
               else SessionState.LOGIN_FAILED)) now
      ({ cl.1 with canUpdate := true }, cl.2.1, cl.2.2)
    else if r.result.session.expired = true then
      let rs := resetSession s store
      ({ rs.1 with id := none, status := SessionState.SESSION_UNINITIALIZED,
                   canUpdate := true }, rs.2, [])
    else if r.result.session.user ≠ none then
      let s1 := { s with user := r.result.session.user,
                         status := SessionState.LOGIN_SUCCESSFUL,
                         mode := Mode.valid }
      if r.result.session.remember = true then
        ({ s1 with saved_id := s1.id, remember := true, canUpdate := true },
         some (jsStringOf s1.id), [])
      else
        ({ s1 with canUpdate := true }, store, [])
    else
      ({ s with mode := Mode.check, canUpdate := true }, store, [])
  else
    ({ s with status := SessionState.SERVER_UNAVAILABLE, canUpdate := true },
     store, [])

/-- Handler `_onEndSession(response)`: unconditionally calls `resetSession()`,
clears `id`, `user` and `passport_url`, sets mode "new", status
`USER_LOGGED_OUT`, and `#canUpdate` true. -/
def onEndSession (s : Session) (store : Storage) : Session × Storage :=
  let rs := resetSession s store
  ({ rs.1 with id := none, user := none, passport_url := none,
               mode := Mode.«new», status := SessionState.USER_LOGGED_OUT,
               canUpdate := true }, rs.2)

/-- The completion callback `endSession` installs on its batch: apply
`_onEndSession` to the response, then `_onStartSession` to the same
response, then invoke the supplied callback when one was given. The
returned Bool is whether that callback was invoked; `none` models
`_onStartSession` throwing, which also skips the callback. -/
def endSessionBatchHandler (s : Session) (store : Storage)
    (r : StartResponse) (hasCallback : Bool) :
    Option (Session × Storage × Bool) :=
  let es := onEndSession s store
  match onStartSession es.1 r with
  | some s2 => some (s2, es.2, hasCallback)
  | none => none

/-! ### Field bookkeeping lemmas for the `update()` pipeline stages -/

theorem observeStatus_statusChanged (s : Session) :
    (observeStatus s).1.statusChanged = decide (s.lastStatus ≠ some s.status) := by
  unfold observeStatus
  dsimp only
  split_ifs <;> simp_all

theorem observeStatus_lastStatus (s : Session) :
    (observeStatus s).1.lastStatus = some s.status := by
  unfold observeStatus
  dsimp only
  split_ifs <;> simp_all

theorem observeStatus_invoked (s : Session) :
    (observeStatus s).2 = decide (s.lastStatus ≠ some s.status) := by
  unfold observeStatus
  dsimp only
  split_ifs <;> simp_all

theorem observeStatus_rest (s : Session) :
    (observeStatus s).1.mode = s.mode ∧ (observeStatus s).1.canUpdate = s.canUpdate ∧
    (observeStatus s).1.hasCore = s.hasCore ∧ (observeStatus s).1.status = s.status ∧
    (observeStatus s).1.totalAttempts = s.totalAttempts ∧
    (observeStatus s).1.maxAttempts = s.maxAttempts ∧
    (observeStatus s).1.lastUpdate = s.lastUpdate ∧
    (observeStatus s).1.id = s.id ∧ (observeStatus s).1.uri_id = s.uri_id ∧
    (observeStatus s).1.saved_id = s.saved_id := by
  unfold observeStatus
  dsimp only
  split_ifs <;> simp_all

theorem retryStep_rest (s : Session) :
    (retryStep s).statusChanged = s.statusChanged ∧
    (retryStep s).lastStatus = s.lastStatus ∧
    (retryStep s).mode = s.mode ∧ (retryStep s).canUpdate = s.canUpdate ∧
    (retryStep s).hasCore = s.hasCore ∧ (retryStep s).lastUpdate = s.lastUpdate ∧
    (retryStep s).maxAttempts = s.maxAttempts ∧
    (retryStep s).id = s.id ∧ (retryStep s).uri_id = s.uri_id ∧
    (retryStep s).saved_id = s.saved_id := by
  unfold retryStep
  split_ifs <;> simp_all

theorem initStep_rest (s : Session) (store : Storage) :
    (initStep s store).statusChanged = s.statusChanged ∧
    (initStep s store).lastStatus = s.lastStatus ∧
    (initStep s store).status = s.status ∧
    (initStep s store).canUpdate = s.canUpdate ∧
    (initStep s store).hasCore = s.hasCore ∧
    (initStep s store).lastUpdate = s.lastUpdate ∧
    (initStep s store).totalAttempts = s.totalAttempts ∧
    (initStep s store).maxAttempts = s.maxAttempts := by
  unfold initStep
  dsimp only
  split_ifs <;> simp_all

theorem dispatchStep_rest (s : Session) (store : Storage) :
    (dispatchStep s store).1.statusChanged = s.statusChanged ∧
    (dispatchStep s store).1.lastStatus = s.lastStatus ∧
    (dispatchStep s store).1.lastUpdate = s.lastUpdate ∧
    (dispatchStep s store).1.totalAttempts = s.totalAttempts ∧
    (dispatchStep s store).1.maxAttempts = s.maxAttempts := by
  unfold dispatchStep startSession checkSession resetSession
  cases hm : s.mode <;> simp [hm]

theorem dispatchStep_canUpdate (s : Session) (store : Storage) :
    (dispatchStep s store).2.2 ≠ [] → (dispatchStep s store).1.canUpdate = false := by
  unfold dispatchStep startSession checkSession resetSession
  cases hm : s.mode <;> simp [hm]

/-- With mode "wait" an `update()` call returns at the early guard:
nothing is dispatched and the mode stays "wait". -/
theorem update_of_wait (s : Session) (store : Storage) (now : Int)
    (h : s.mode = Mode.wait) :
    (update s store now).calls = [] ∧
    (update s store now).session.mode = Mode.wait := by
  unfold update
  simp [observeStatus_rest s |>.1, h]

theorem update_observe_fields (s : Session) (store : Storage) (now : Int) :
    (update s store now).session.statusChanged = (observeStatus s).1.statusChanged ∧
    (update s store now).session.lastStatus = (observeStatus s).1.lastStatus ∧
    (update s store now).invoked = (observeStatus s).2 := by
  unfold update
  dsimp only
  split_ifs <;> simp [dispatchStep_rest, initStep_rest, retryStep_rest]

/-- Claim C3: on every `update()` call, `statusChanged` is recomputed and
is true exactly when the status at entry differs from the status recorded
by the previous call (`#lastStatus`, null before the first call); the
caller's callback is invoked exactly when `statusChanged` is set; and the
call records the entry status into `#lastStatus`. -/
theorem update_statusChanged_exact (s : Session) (store : Storage) (now : Int) :
    ((update s store now).session.statusChanged = true ↔
      s.lastStatus ≠ some s.status) ∧
    (update s store now).invoked = (update s store now).session.statusChanged ∧
    (update s store now).session.lastStatus = some s.status := by
  have h := update_observe_fields s store now
  rw [h.1, h.2.1, h.2.2, observeStatus_statusChanged, observeStatus_lastStatus,
      observeStatus_invoked]
  simp

/-- Claim C4: `update()` dispatches no remote call when fewer than 5000 ms
have elapsed since `#lastUpdate`, and whenever it does dispatch, at least
5000 ms had elapsed and `#lastUpdate` has been set to the current time. -/
theorem update_rateLimit (s : Session) (store : Storage) (now : Int) :
    (now - s.lastUpdate < 5000 → (update s store now).calls = []) ∧
    ((update s store now).calls ≠ [] →
      (update s store now).session.lastUpdate = now ∧
      5000 ≤ now - s.lastUpdate) := by
  have hlu : (initStep (retryStep (observeStatus s).1) store).lastUpdate
      = s.lastUpdate := by
    simp [initStep_rest, retryStep_rest, observeStatus_rest]
  unfold update
  dsimp only
  split_ifs with h1 h2 h3
  · simp
  · simp
  · simp
  · rw [hlu] at h3
    refine ⟨fun hlt => absurd hlt h3, fun _ => ⟨?_, by omega⟩⟩
    simp [dispatchStep_rest]

/-- Witness for `update_rateLimit`: a fresh session with a remembered id
dispatches `App.checkSession` on its first eligible update, setting
`#lastUpdate` to the current time after a 30000 ms elapsed interval. -/
theorem update_rateLimit_witness :
    (update (initSession 0 true) (some "abc123") 0).session.lastUpdate = 0 ∧
    5000 ≤ (0 : Int) - (initSession 0 true).lastUpdate :=
  (update_rateLimit (initSession 0 true) (some "abc123") 0).2 (by decide)

/-- Claim C1 counterexample: the `canProceed` guard is checked by
`update()` only. With an outstanding remote call (`#canUpdate` false),
`endSession` still dispatches its end+start batch; and the
server-reported-failure path of `_onCheckSession` dispatches a
fire-and-forget end+start batch yet finishes with `#canUpdate` true while
that batch is still outstanding. -/
theorem canProceed_counterexample :
    ((endSession { initSession 0 true with canUpdate := false }).2 ≠ [] ∧
     { initSession 0 true with canUpdate := false }.canUpdate = false) ∧
    ((onCheckSession (initSession 0 true) none
        { success := true,
          result := { success := false, errorCode := 0,
                      session := { expired := false, user := none,
                                   remember := false } } } 0).2.2 ≠ [] ∧
     (onCheckSession (initSession 0 true) none
        { success := true,
          result := { success := false, errorCode := 0,
                      session := { expired := false, user := none,
                                   remember := false } } } 0).1.canUpdate
       = true) := by
  decide

/-- Claim C1 (amended): `update()` starts no remote call while
`#canUpdate` is false (and leaves it false); every dispatch performed by
`update()`, `startSession`, `checkSession`, `endSession`, `logOut` or
`cancelLogin` leaves `#canUpdate` false; and only the completion handlers
set `#canUpdate` back to true. However `endSession`, `logOut` and
`cancelLogin` dispatch their end+start batch unconditionally, regardless
of `#canUpdate`, and `_onCheckSession`'s failure path re-enables
`#canUpdate` while its fire-and-forget batch is still outstanding. -/
theorem canProceed_discipline :
    (∀ s store now, s.canUpdate = false →
      (update s store now).calls = [] ∧
      (update s store now).session.canUpdate = false) ∧
    (∀ s store now, (update s store now).calls ≠ [] →
      (update s store now).session.canUpdate = false) ∧
    (∀ s store, (startSession s store).1.canUpdate = false) ∧
    (∀ s, (checkSession s).1.canUpdate = false) ∧
    (∀ s, (endSession s).1.canUpdate = false ∧ (endSession s).2 ≠ []) ∧
    (∀ s, (logOut s).1.canUpdate = false ∧ (logOut s).2 ≠ []) ∧
    (∀ s store ns now, (cancelLogin s store ns now).1.canUpdate = false ∧
      (cancelLogin s store ns now).2.2 ≠ []) ∧
    (∀ s r s', onStartSession s r = some s' → s'.canUpdate = true) ∧
    (∀ s store r now, (onCheckSession s store r now).1.canUpdate = true) ∧
    (∀ s store, (onEndSession s store).1.canUpdate = true) ∧
    (∀ s store r hc out, endSessionBatchHandler s store r hc = some out →
      out.1.canUpdate = true) := by
  refine ⟨?_, ?_, ?_, ?_, ?_, ?_, ?_, ?_, ?_, ?_, ?_⟩
  · intro s store now h
    have hc : (observeStatus s).1.canUpdate = false := by
      simp [observeStatus_rest, h]
    unfold update
    dsimp only
    rw [if_pos (Or.inl hc)]
    exact ⟨rfl, hc⟩
  · intro s store now
    unfold update
    dsimp only
    split_ifs
    · simp
    · simp
    · simp
    · exact dispatchStep_canUpdate _ _
  · intro s store
    simp [startSession, resetSession]
  · intro s
    simp [checkSession]
  · intro s
    simp [endSession]
  · intro s
    simp [logOut, endSession]
  · intro s store ns now
    simp [cancelLogin, endSession, resetSession]
  · intro s r s' h
    unfold onStartSession at h
    split_ifs at h
    · split at h
      · split at h
        · cases h; rfl
        · cases h
      · cases h
    · cases h; rfl
  · intro s store r now
    unfold onCheckSession
    dsimp only
    split_ifs <;> rfl
  · intro s store
    simp [onEndSession, resetSession]
  · intro s store r hc out h
    unfold endSessionBatchHandler at h
    dsimp only at h
    split at h
    · cases h
      rename_i s2 hs2
      unfold onStartSession at hs2
      split_ifs at hs2
      · split at hs2
        · split at hs2
          · cases hs2; rfl
          · cases hs2
        · cases hs2
      · cases hs2; rfl
    · cases h

theorem retryStep_spec (s : Session)
    (h : s.status = SessionState.SERVER_UNAVAILABLE) :
    (s.maxAttempts ≤ s.totalAttempts →
      retryStep s = { s with status := SessionState.EXCEEDED_MAX_ATTEMPTS }) ∧
    (s.totalAttempts < s.maxAttempts →
      retryStep s = { s with status := SessionState.SESSION_UNINITIALIZED,
                             totalAttempts := s.totalAttempts + 1 }) := by
  unfold retryStep
  rw [if_pos h]
  exact ⟨fun hge => by rw [if_pos hge], fun hlt => by rw [if_neg (by omega)]⟩

theorem initStep_of_ne (s : Session) (store : Storage)
    (h : s.status ≠ SessionState.SESSION_UNINITIALIZED) :
    initStep s store = s := by
  unfold initStep
  rw [if_neg h]

theorem initStep_mode_of_uninit (s : Session) (store : Storage)
    (h : s.status = SessionState.SESSION_UNINITIALIZED) :
    (initStep s store).mode = Mode.check ∨ (initStep s store).mode = Mode.«new» := by
  unfold initStep
  rw [if_pos h]
  dsimp only
  split_ifs <;> simp

/-- Claim C2 counterexample: with `status == SERVER_UNAVAILABLE` but mode
"wait" (the state every failed start/check handler actually leaves behind,
since the dispatching `update()` set mode "wait" and the handlers do not
restore it), the next `update()` performs neither transition; and with
mode "new" and `attemptCount` already at `maxAttempts` (reachable through
a failed logOut batch, whose end handler sets mode "new"), the very
`update()` call that sets `EXCEEDED_MAX_ATTEMPTS` continues, dispatches
`App.startSession`, and leaves status `WAITING_FOR_SERVER`. -/
theorem serverUnavailable_counterexample :
    ((update { initSession 0 true with
                 status := SessionState.SERVER_UNAVAILABLE,
                 mode := Mode.wait } none 100000).session.status
        = SessionState.SERVER_UNAVAILABLE ∧
     (update { initSession 0 true with
                 status := SessionState.SERVER_UNAVAILABLE,
                 mode := Mode.wait } none 100000).session.totalAttempts = 0) ∧
    ((update { initSession 0 true with
                 status := SessionState.SERVER_UNAVAILABLE,
                 mode := Mode.«new», totalAttempts := 5 } none 100000).session.status
        = SessionState.WAITING_FOR_SERVER ∧
     (update { initSession 0 true with
                 status := SessionState.SERVER_UNAVAILABLE,
                 mode := Mode.«new», totalAttempts := 5 } none 100000).calls
        ≠ []) := by
  decide

/-- Claim C2 (amended): when `update()` runs with
`status == SERVER_UNAVAILABLE`, `#canUpdate` true, mode not "wait" and a
core attached, then: with `attemptCount >= maxAttempts` the attempt count
is unchanged and status becomes `EXCEEDED_MAX_ATTEMPTS` — though the same
call continues and may still dispatch (a "new"-mode dispatch then
overwrites status with `WAITING_FOR_SERVER`); otherwise the attempt count
is incremented by exactly one and status becomes `SESSION_UNINITIALIZED`
before the call continues with the uninitialized-session logic (a
"new"-mode dispatch again ends at `WAITING_FOR_SERVER`). -/
theorem serverUnavailable_retry (s : Session) (store : Storage) (now : Int)
    (hcan : s.canUpdate = true) (hmode : s.mode ≠ Mode.wait)
    (hcore : s.hasCore = true)
    (hst : s.status = SessionState.SERVER_UNAVAILABLE) :
    (s.maxAttempts ≤ s.totalAttempts →
      (update s store now).session.totalAttempts = s.totalAttempts ∧
      ((update s store now).session.status
          = SessionState.EXCEEDED_MAX_ATTEMPTS ∨
       ((update s store now).session.status = SessionState.WAITING_FOR_SERVER ∧
        (update s store now).calls ≠ []))) ∧
    (s.totalAttempts < s.maxAttempts →
      (update s store now).session.totalAttempts = s.totalAttempts + 1 ∧
      ((update s store now).session.status
          = SessionState.SESSION_UNINITIALIZED ∨
       ((update s store now).session.status = SessionState.WAITING_FOR_SERVER ∧
        (update s store now).calls ≠ []))) := by
  obtain ⟨hm, hc, hhc, hstat, hta, hma, hlu, _, _, _⟩ := observeStatus_rest s
  have h1 : ¬((observeStatus s).1.canUpdate = false ∨
      (observeStatus s).1.mode = Mode.wait) := by
    simp [hc, hm, hcan, hmode]
  have h2 : ¬((observeStatus s).1.hasCore = false) := by simp [hhc, hcore]
  unfold update
  dsimp only
  rw [if_neg h1, if_neg h2]
  constructor
  · intro hge
    have hr := (retryStep_spec (observeStatus s).1 (by rw [hstat, hst])).1
      (by rw [hma, hta]; exact hge)
    have hi : initStep (retryStep (observeStatus s).1) store
        = retryStep (observeStatus s).1 := by
      rw [hr]; exact initStep_of_ne _ _ (by simp)
    rw [hi, hr]
    dsimp only
    split_ifs with hrate
    · simp [hta]
    · unfold dispatchStep
      dsimp only
      rw [hm]
      cases hmm : s.mode <;>
        simp [startSession, checkSession, resetSession, hta]
  · intro hlt
    have hr := (retryStep_spec (observeStatus s).1 (by rw [hstat, hst])).2
      (by rw [hma, hta]; exact hlt)
    obtain ⟨_, _, hIs, _, _, hIl, hIt, _⟩ :=
      initStep_rest (retryStep (observeStatus s).1) store
    have hts : (initStep (retryStep (observeStatus s).1) store).status
        = SessionState.SESSION_UNINITIALIZED := by
      rw [hIs, hr]
    have hta2 : (initStep (retryStep (observeStatus s).1) store).totalAttempts
        = s.totalAttempts + 1 := by
      rw [hIt, hr]
      dsimp only
      rw [hta]
    have hmode2 := initStep_mode_of_uninit (retryStep (observeStatus s).1) store
      (by rw [hr])
    split_ifs with hrate
    · exact ⟨hta2, Or.inl hts⟩
    · unfold dispatchStep
      dsimp only
      rcases hmode2 with hmm | hmm <;> rw [hmm] <;>
        simp [startSession, checkSession, resetSession, hta2, hts]

/-- Witness for `serverUnavailable_retry`: a session one failed attempt
short of the cap, in "expired" mode, increments its attempt count and is
re-dispatched as a brand-new session request. -/
theorem serverUnavailable_retry_witness :
    (update { initSession 0 true with
                status := SessionState.SERVER_UNAVAILABLE,
                mode := Mode.expired, totalAttempts := 4 } none 100000
      ).session.totalAttempts = 4 + 1 ∧
    ((update { initSession 0 true with
                 status := SessionState.SERVER_UNAVAILABLE,
                 mode := Mode.expired, totalAttempts := 4 } none 100000
       ).session.status = SessionState.SESSION_UNINITIALIZED ∨
     ((update { initSession 0 true with
                  status := SessionState.SERVER_UNAVAILABLE,
                  mode := Mode.expired, totalAttempts := 4 } none 100000
        ).session.status = SessionState.WAITING_FOR_SERVER ∧
      (update { initSession 0 true with
                  status := SessionState.SERVER_UNAVAILABLE,
                  mode := Mode.expired, totalAttempts := 4 } none 100000
        ).calls ≠ [])) :=
  (serverUnavailable_retry _ none 100000 rfl (by decide) rfl rfl).2 (by decide)

/-- Witness for `canProceed_discipline`: with `#canUpdate` false a
concrete `update()` dispatches nothing and leaves the flag false. -/
theorem canProceed_discipline_witness :
    (update { initSession 0 true with canUpdate := false } none 0).calls = [] ∧
    (update { initSession 0 true with canUpdate := false } none 0
      ).session.canUpdate = false :=
  canProceed_discipline.1 { initSession 0 true with canUpdate := false } none 0 rfl

/-- Claim C5 counterexample: with `id` bound to the empty string — non-null
and not the string "null" — the uninitialized branch still classifies the
session as "new" (JavaScript truthiness rejects ""); and after the
remembered-id round trip the first `update()` has already dispatched
`App.checkSession` and moved the mode on to "wait", so the mode observed
after that call is not "check". -/
theorem uninitializedMode_counterexample :
    (({ initSession 0 true with id := some "" } : Session).id ≠ none ∧
     ({ initSession 0 true with id := some "" } : Session).id ≠ some "null" ∧
     (update { initSession 0 true with id := some "" } none (-28000)
       ).session.mode = Mode.«new») ∧
    ((update (initSession 0 true) (some "abc123") 0).session.mode ≠ Mode.check ∧
     (update (initSession 0 true) (some "abc123") 0).calls
        = [Call.executeComponent "App.checkSession"]) := by
  decide

/-- Claim C5 (amended): when `update()` reaches the uninitialized branch
it loads `#saved_id` from storage, sets `id` preferring a truthy
`#uri_id` over a truthy `#saved_id` (leaving `id` unchanged when neither
is truthy), and sets mode "check" exactly when the resulting `id` is
truthy (non-null and non-empty) and not the string "null", else "new";
and a session id persisted under the storage key, read back by a fresh
session, makes that session's first `update()` adopt the id, classify
itself into "check" mode, and immediately dispatch `App.checkSession`,
leaving mode "wait" while that call is outstanding. -/
theorem uninitialized_classification (s : Session) (store : Storage)
    (h : s.status = SessionState.SESSION_UNINITIALIZED) :
    ((initStep s store).saved_id = store ∧
     (initStep s store).id =
       (if truthyStr s.uri_id = true then s.uri_id
        else if truthyStr store = true then store else s.id) ∧
     ((initStep s store).mode = Mode.check ↔
       (truthyStr (initStep s store).id = true ∧
        (initStep s store).id ≠ some "null")) ∧
     ((initStep s store).mode = Mode.check ∨
      (initStep s store).mode = Mode.«new»)) ∧
    (∀ v : String, v ≠ "" → v ≠ "null" →
      (update (initSession 0 true) (some v) 0).session.id = some v ∧
      (update (initSession 0 true) (some v) 0).calls
        = [Call.executeComponent "App.checkSession"] ∧
      (update (initSession 0 true) (some v) 0).session.mode = Mode.wait) := by
  constructor
  · unfold initStep
    rw [if_pos h]
    dsimp only
    split_ifs <;> simp_all
    all_goals assumption
  · intro v hv hnull
    simp [update, observeStatus, initSession, retryStep, initStep, dispatchStep,
          checkSession, truthyStr, hv, hnull]

/-- Witness for `uninitialized_classification`: the remembered id
"abc123" classifies a fresh session into "check" mode and its first
update adopts the id and dispatches `App.checkSession`. -/
theorem uninitialized_classification_witness :
    (initStep (initSession 0 true) (some "abc123")).mode = Mode.check ∧
    (update (initSession 0 true) (some "abc123") 0).session.id = some "abc123" :=
  ⟨((uninitialized_classification (initSession 0 true) (some "abc123")
      rfl).1.2.2.1).mpr (by decide),
   ((uninitialized_classification (initSession 0 true) (some "abc123")
      rfl).2 "abc123" (by decide) (by decide)).1⟩

/-- Claim C6: on a call-level success whose `result.success` is false,
`_onCheckSession` clears `id` and cancels the login, using
`LOGIN_CANCELLED` exactly when the server error code is 111 and
`LOGIN_FAILED` otherwise; afterwards `id` is null, `#totalAttempts` is 0
and the mode is "new". -/
theorem checkSession_failure (s : Session) (store : Storage)
    (r : CheckResponse) (now : Int)
    (h1 : r.success = true) (h2 : r.result.success = false) :
    (onCheckSession s store r now).1.id = none ∧
    (onCheckSession s store r now).1.totalAttempts = 0 ∧
    (onCheckSession s store r now).1.mode = Mode.«new» ∧
    (onCheckSession s store r now).1.status =
      (if r.result.errorCode = 111 then SessionState.LOGIN_CANCELLED
       else SessionState.LOGIN_FAILED) := by
  unfold onCheckSession
  rw [if_pos h1, if_pos h2]
  dsimp only
  split_ifs <;> simp [cancelLogin, endSession, resetSession]

/-- Witness for `checkSession_failure`: the spec scenario — a check
response with `result.success` false and error code 111 leaves status
`LOGIN_CANCELLED`, a null id, attempt count 0 and mode "new". -/
theorem checkSession_failure_witness :
    (onCheckSession
        { initSession 0 true with id := some "sid", totalAttempts := 3 } none
        { success := true,
          result := { success := false, errorCode := 111,
                      session := { expired := false, user := none,
                                   remember := false } } } 0).1.id = none ∧
    (onCheckSession
        { initSession 0 true with id := some "sid", totalAttempts := 3 } none
        { success := true,
          result := { success := false, errorCode := 111,
                      session := { expired := false, user := none,
                                   remember := false } } } 0
      ).1.totalAttempts = 0 ∧
    (onCheckSession
        { initSession 0 true with id := some "sid", totalAttempts := 3 } none
        { success := true,
          result := { success := false, errorCode := 111,
                      session := { expired := false, user := none,
                                   remember := false } } } 0
      ).1.mode = Mode.«new» ∧
    (onCheckSession
        { initSession 0 true with id := some "sid", totalAttempts := 3 } none
        { success := true,
          result := { success := false, errorCode := 111,
                      session := { expired := false, user := none,
                                   remember := false } } } 0
      ).1.status = SessionState.LOGIN_CANCELLED := by
  have h := checkSession_failure
    { initSession 0 true with id := some "sid", totalAttempts := 3 } none
    { success := true,
      result := { success := false, errorCode := 111,
                  session := { expired := false, user := none,
                               remember := false } } } 0 rfl rfl
  exact ⟨h.1, h.2.1, h.2.2.1, h.2.2.2.trans (if_pos rfl)⟩

/-- Claim C7 counterexample: the expired-session handler runs in the
reachable state where the dispatching `update()` left mode "wait"; after
it resets and sets status `SESSION_UNINITIALIZED`, the mode is still
"wait", so the next `update()` returns at the wait guard and dispatches
nothing — no brand-new session is requested on the next tick. -/
theorem expiredReset_counterexample :
    (onCheckSession
        { initSession 0 true with
            mode := Mode.wait, canUpdate := false,
            status := SessionState.WAITING_FOR_USER, id := some "sid" } none
        { success := true,
          result := { success := true, errorCode := 0,
                      session := { expired := true, user := none,
                                   remember := false } } } 0
      ).1.status = SessionState.SESSION_UNINITIALIZED ∧
    (onCheckSession
        { initSession 0 true with
            mode := Mode.wait, canUpdate := false,
            status := SessionState.WAITING_FOR_USER, id := some "sid" } none
        { success := true,
          result := { success := true, errorCode := 0,
                      session := { expired := true, user := none,
                                   remember := false } } } 0
      ).1.mode = Mode.wait ∧
    (update (onCheckSession
        { initSession 0 true with
            mode := Mode.wait, canUpdate := false,
            status := SessionState.WAITING_FOR_USER, id := some "sid" } none
        { success := true,
          result := { success := true, errorCode := 0,
                      session := { expired := true, user := none,
                                   remember := false } } } 0).1
      (some "null") 100000).calls = [] ∧
    (update (onCheckSession
        { initSession 0 true with
            mode := Mode.wait, canUpdate := false,
            status := SessionState.WAITING_FOR_USER, id := some "sid" } none
        { success := true,
          result := { success := true, errorCode := 0,
                      session := { expired := true, user := none,
                                   remember := false } } } 0).1
      (some "null") 100000).session.mode = Mode.wait := by
  decide

/-- Claim C7 (amended): on a call-level success reporting the session
expired, `_onCheckSession` resets the session-scoped fields, clears `id`,
persists null to storage and sets status `SESSION_UNINITIALIZED` with
`#canUpdate` true — but it leaves the mode unchanged; since the handler
runs with mode "wait" (set by the `update()` that dispatched the check),
every subsequent `update()` returns at the wait guard and never
dispatches the new-session path. -/
theorem checkSession_expired (s : Session) (store : Storage)
    (r : CheckResponse) (now : Int)
    (h1 : r.success = true) (h2 : r.result.success = true)
    (h3 : r.result.session.expired = true) :
    (onCheckSession s store r now).1.status
        = SessionState.SESSION_UNINITIALIZED ∧
    (onCheckSession s store r now).1.id = none ∧
    (onCheckSession s store r now).1.uri_id = none ∧
    (onCheckSession s store r now).1.saved_id = none ∧
    (onCheckSession s store r now).1.user = none ∧
    (onCheckSession s store r now).1.remember = false ∧
    (onCheckSession s store r now).1.mode = s.mode ∧
    (onCheckSession s store r now).1.canUpdate = true ∧
    (onCheckSession s store r now).2.1 = some "null" ∧
    (onCheckSession s store r now).2.2 = [] ∧
    (s.mode = Mode.wait → ∀ store2 now2,
      (update (onCheckSession s store r now).1 store2 now2).calls = [] ∧
      (update (onCheckSession s store r now).1 store2 now2
        ).session.mode = Mode.wait) := by
  unfold onCheckSession
  rw [if_pos h1, if_neg (by simp [h2]), if_pos h3]
  exact ⟨rfl, rfl, rfl, rfl, rfl, rfl, rfl, rfl, rfl, rfl,
         fun hw store2 now2 => update_of_wait _ store2 now2 hw⟩

/-- Witness for `checkSession_expired`: the concrete expired response in
the concrete wait-mode state resets to `SESSION_UNINITIALIZED`, and the
next update dispatches nothing. -/
theorem checkSession_expired_witness :
    (onCheckSession
        { initSession 0 true with
            mode := Mode.wait, canUpdate := false,
            status := SessionState.WAITING_FOR_SERVER, id := some "xyz" }
        (some "xyz")
        { success := true,
          result := { success := true, errorCode := 0,
                      session := { expired := true, user := none,
                                   remember := false } } } 0
      ).1.status = SessionState.SESSION_UNINITIALIZED ∧
    (update (onCheckSession
        { initSession 0 true with
            mode := Mode.wait, canUpdate := false,
            status := SessionState.WAITING_FOR_SERVER, id := some "xyz" }
        (some "xyz")
        { success := true,
          result := { success := true, errorCode := 0,
                      session := { expired := true, user := none,
                                   remember := false } } } 0).1
      (some "null") 99999).calls = [] := by
  have h := checkSession_expired
    { initSession 0 true with
        mode := Mode.wait, canUpdate := false,
        status := SessionState.WAITING_FOR_SERVER, id := some "xyz" }
    (some "xyz")
    { success := true,
      result := { success := true, errorCode := 0,
                  session := { expired := true, user := none,
                               remember := false } } } 0 rfl rfl rfl
  exact ⟨h.1, (h.2.2.2.2.2.2.2.2.2.2 rfl (some "null") 99999).1⟩

/-- Field characterization of a non-throwing `_onStartSession` run. -/
theorem onStartSession_fields (s : Session) (r : StartResponse) (s' : Session)
    (h : onStartSession s r = some s') :
    s'.totalAttempts = s.totalAttempts ∧ s'.user = s.user ∧
    s'.canUpdate = true ∧
    (r.success = false → s'.status = SessionState.SERVER_UNAVAILABLE ∧
      s'.id = s.id ∧ s'.mode = s.mode) ∧
    (r.success = true → s'.status = SessionState.LOGIN_REQUIRED ∧
      s'.mode = Mode.wait ∧
      ∃ rec payload, selectStartRecord r.result = some rec ∧
        rec.session = some payload ∧ s'.id = payload.id ∧
        s'.passport_url = payload.passport_url) := by
  unfold onStartSession at h
  by_cases hs : r.success = true
  · rw [if_pos hs] at h
    cases hsel : selectStartRecord r.result with
    | none => rw [hsel] at h; cases h
    | some rec =>
      rw [hsel] at h
      dsimp only at h
      cases hpay : rec.session with
      | none => rw [hpay] at h; cases h
      | some payload =>
        rw [hpay] at h
        cases h
        refine ⟨rfl, rfl, rfl, fun hf => ?_, fun _ =>
          ⟨rfl, rfl, rec, payload, rfl, hpay, rfl, rfl⟩⟩
        rw [hf] at hs
        cases hs
  · rw [if_neg hs] at h
    cases h
    exact ⟨rfl, rfl, rfl, fun _ => ⟨rfl, rfl, rfl⟩, fun ht => absurd ht hs⟩

theorem retryStep_attempts (s : Session) :
    (retryStep s).totalAttempts = s.totalAttempts ∨
    (retryStep s).totalAttempts = s.totalAttempts + 1 := by
  unfold retryStep
  split_ifs <;> simp

theorem observeStatus_attempts (s : Session) :
    (observeStatus s).1.totalAttempts = s.totalAttempts :=
  (observeStatus_rest s).2.2.2.2.1

theorem initStep_attempts (s : Session) (store : Storage) :
    (initStep s store).totalAttempts = s.totalAttempts :=
  (initStep_rest s store).2.2.2.2.2.2.1

theorem dispatchStep_attempts (s : Session) (store : Storage) :
    (dispatchStep s store).1.totalAttempts = s.totalAttempts :=
  (dispatchStep_rest s store).2.2.2.1

/-- Claim C8 counterexample: `attemptCount` is reset to 0 by an automatic,
server-driven path, not only by an explicit user cancel — a check response
with `result.success` false and a non-111 error code (a login failure, not
a user cancellation) zeroes a non-zero attempt count. -/
theorem attemptReset_counterexample :
    (onCheckSession { initSession 0 true with totalAttempts := 3 } none
      { success := true,
        result := { success := false, errorCode := 0,
                    session := { expired := false, user := none,
                                 remember := false } } } 0
      ).1.totalAttempts = 0 ∧
    ({ initSession 0 true with totalAttempts := 3 } : Session).totalAttempts
      = 3 ∧
    (onCheckSession { initSession 0 true with totalAttempts := 3 } none
      { success := true,
        result := { success := false, errorCode := 0,
                    session := { expired := false, user := none,
                                 remember := false } } } 0
      ).1.status = SessionState.LOGIN_FAILED := by
  decide

/-- Claim C8 (amended): across every operation of the session,
`attemptCount` never decreases except when it is set to exactly 0 by
`cancelLogin` — whether invoked directly or automatically by
`_onCheckSession` on a server-reported check failure (including the
non-user-driven `LOGIN_FAILED` case) — and by nothing else: `update()`
leaves it unchanged or increments it by exactly one, `startSession`
(including its success handler), `checkSession`, `endSession`, `logOut`,
`openLoginPage`, `_onEndSession` and the logOut batch handler all
preserve it. -/
theorem attemptCount_discipline :
    (∀ s store now,
      (update s store now).session.totalAttempts = s.totalAttempts ∨
      (update s store now).session.totalAttempts = s.totalAttempts + 1) ∧
    (∀ s store, (startSession s store).1.totalAttempts = s.totalAttempts) ∧
    (∀ s, (checkSession s).1.totalAttempts = s.totalAttempts) ∧
    (∀ s, (endSession s).1.totalAttempts = s.totalAttempts) ∧
    (∀ s, (logOut s).1.totalAttempts = s.totalAttempts) ∧
    (∀ s, (openLoginPage s).totalAttempts = s.totalAttempts) ∧
    (∀ s store ns now, (cancelLogin s store ns now).1.totalAttempts = 0) ∧
    (∀ s r s', onStartSession s r = some s' →
      s'.totalAttempts = s.totalAttempts) ∧
    (∀ s store, (onEndSession s store).1.totalAttempts = s.totalAttempts) ∧
    (∀ s store r now, (onCheckSession s store r now).1.totalAttempts =
      (if r.success = true ∧ r.result.success = false then 0
       else s.totalAttempts)) ∧
    (∀ s store r hc out, endSessionBatchHandler s store r hc = some out →
      out.1.totalAttempts = s.totalAttempts) := by
  refine ⟨?_, ?_, ?_, ?_, ?_, ?_, ?_, ?_, ?_, ?_, ?_⟩
  · intro s store now
    have hr := retryStep_attempts (observeStatus s).1
    have ho := observeStatus_attempts s
    unfold update
    dsimp only
    split_ifs
    · left; exact ho
    · left; exact ho
    · rw [initStep_attempts]
      rcases hr with h | h
      · left; rw [h, ho]
      · right; rw [h, ho]
    · rw [dispatchStep_attempts]
      show (initStep (retryStep (observeStatus s).1) store).totalAttempts
          = s.totalAttempts ∨ _ = s.totalAttempts + 1
      rw [initStep_attempts]
      rcases hr with h | h
      · left; rw [h, ho]
      · right; rw [h, ho]
  · intro s store
    simp [startSession, resetSession]
  · intro s
    simp [checkSession]
  · intro s
    simp [endSession]
  · intro s
    simp [logOut, endSession]
  · intro s
    unfold openLoginPage
    split_ifs <;> rfl
  · intro s store ns now
    simp [cancelLogin, endSession, resetSession]
  · intro s r s' h
    exact (onStartSession_fields s r s' h).1
  · intro s store
    simp [onEndSession, resetSession]
  · intro s store r now
    unfold onCheckSession
    dsimp only
    split_ifs <;> simp_all [cancelLogin, endSession, resetSession]
  · intro s store r hc out h
    unfold endSessionBatchHandler at h
    dsimp only at h
    split at h
    · cases h
      rename_i s2 hs2
      rw [(onStartSession_fields _ r s2 hs2).1]
      simp [onEndSession, resetSession]
    · cases h

/-- Witness for `attemptCount_discipline`: a concrete success handler run
preserves a non-zero attempt count. -/
theorem attemptCount_discipline_witness :
    ({ initSession 0 true with
        totalAttempts := 2, status := SessionState.LOGIN_REQUIRED,
        mode := Mode.wait, id := some "nid",
        passport_url := some "purl" } : Session).totalAttempts
      = ({ initSession 0 true with totalAttempts := 2 } : Session
        ).totalAttempts :=
  attemptCount_discipline.2.2.2.2.2.2.2.1
    { initSession 0 true with totalAttempts := 2 }
    { success := true,
      result := StartResult.single
        { objectTag := none,
          session := some { id := some "nid",
                            passport_url := some "purl" } } }
    { initSession 0 true with
        totalAttempts := 2, status := SessionState.LOGIN_REQUIRED,
        mode := Mode.wait, id := some "nid",
        passport_url := some "purl" }
    (by decide)

/-- Claim C9 counterexample: when the batched end+start response fails at
the call level, the chained start handler leaves status
`SERVER_UNAVAILABLE` — neither `WAITING_FOR_SERVER` nor `LOGIN_REQUIRED`,
the two outcomes the claim allows. -/
theorem logOut_batch_counterexample :
    (endSessionBatchHandler (initSession 0 true) none
        { success := false,
          result := StartResult.single { objectTag := none,
                                         session := none } } true).map
        (fun out => out.1.status)
      = some SessionState.SERVER_UNAVAILABLE ∧
    SessionState.SERVER_UNAVAILABLE ≠ SessionState.WAITING_FOR_SERVER ∧
    SessionState.SERVER_UNAVAILABLE ≠ SessionState.LOGIN_REQUIRED := by
  decide

/-- Claim C9 (amended): `endSession` queues the end-session component and
then the start-session component and executes them as one batch, whose
single completion callback applies the end-session handler, then the
start-session handler, in that order on the same response, then invokes
the supplied callback; after the batch, status is `LOGIN_REQUIRED` when
the chained start-session succeeded and `SERVER_UNAVAILABLE` when it
failed, and `sessionId` is either null or the freshly extracted session
id — never the logged-out session's id. -/
theorem endSession_batch (s : Session) (store : Storage)
    (r : StartResponse) (hc : Bool) :
    (endSession s).2
      = [Call.executeQueue ["App.endSession", "App.startSession"]] ∧
    (∀ out, endSessionBatchHandler s store r hc = some out →
      out.2.2 = hc ∧ out.1.user = none ∧ out.1.canUpdate = true ∧
      (r.success = false → out.1.status = SessionState.SERVER_UNAVAILABLE ∧
        out.1.id = none ∧ out.1.mode = Mode.«new») ∧
      (r.success = true → out.1.status = SessionState.LOGIN_REQUIRED ∧
        out.1.mode = Mode.wait ∧
        ∃ rec payload, selectStartRecord r.result = some rec ∧
          rec.session = some payload ∧ out.1.id = payload.id)) := by
  refine ⟨rfl, ?_⟩
  intro out h
  unfold endSessionBatchHandler at h
  dsimp only at h
  split at h
  · cases h
    rename_i s2 hs2
    obtain ⟨_, hu, hcu, hfail, hok⟩ :=
      onStartSession_fields (onEndSession s store).1 r s2 hs2
    refine ⟨rfl, ?_, hcu, ?_, ?_⟩
    · rw [hu]; rfl
    · intro hf
      obtain ⟨hst, hid, hmode⟩ := hfail hf
      exact ⟨hst, by rw [hid]; rfl, by rw [hmode]; rfl⟩
    · intro ht
      obtain ⟨hst, hmode, rec, payload, hsel, hpay, hid, _⟩ := hok ht
      exact ⟨hst, hmode, rec, payload, hsel, hpay, hid⟩
  · cases h

/-- Witness for `endSession_batch`: a successful single-record batch
response ends with status `LOGIN_REQUIRED` and the new session id. -/
theorem endSession_batch_witness :
    (endSession (initSession 0 true)).2
      = [Call.executeQueue ["App.endSession", "App.startSession"]] ∧
    ({ initSession 0 true with
        status := SessionState.LOGIN_REQUIRED, mode := Mode.wait,
        id := some "nid", passport_url := some "purl" } : Session).status
      = SessionState.LOGIN_REQUIRED :=
  ⟨(endSession_batch (initSession 0 true) none
      { success := true,
        result := StartResult.single
          { objectTag := none,
            session := some { id := some "nid",
                              passport_url := some "purl" } } } true).1,
   (((endSession_batch (initSession 0 true) none
      { success := true,
        result := StartResult.single
          { objectTag := none,
            session := some { id := some "nid",
                              passport_url := some "purl" } } } true).2
      ({ initSession 0 true with
          status := SessionState.LOGIN_REQUIRED, mode := Mode.wait,
          id := some "nid", passport_url := some "purl" },
       some "null", true) (by decide)).2.2.2.2 rfl).1⟩

/-- The record found by the `_onStartSession` array scan is an element of
the array and carries the `App.startSession` tag. -/
theorem scanStartResult_mem (recs : List (Option ResultRecord))
    (rec : ResultRecord) (h : scanStartResult recs = some rec) :
    some rec ∈ recs ∧ rec.objectTag = some "App.startSession" := by
  induction recs with
  | nil => cases h
  | cons x rest ih =>
    cases x with
    | none =>
      simp only [scanStartResult] at h
      obtain ⟨hmem, htag⟩ := ih h
      exact ⟨List.mem_cons_of_mem _ hmem, htag⟩
    | some rec0 =>
      simp only [scanStartResult] at h
      split_ifs at h with hcond
      · cases h
        exact ⟨List.mem_cons_self _ _, hcond.2⟩
      · obtain ⟨hmem, htag⟩ := ih h
        exact ⟨List.mem_cons_of_mem _ hmem, htag⟩

/-- An array with no element tagged `App.startSession` defeats the scan. -/
theorem scanStartResult_eq_none (recs : List (Option ResultRecord))
    (h : ∀ rec, some rec ∈ recs → rec.objectTag ≠ some "App.startSession") :
    scanStartResult recs = none := by
  induction recs with
  | nil => rfl
  | cons x rest ih =>
    cases x with
    | none =>
      simp only [scanStartResult]
      exact ih (fun rec hm => h rec (List.mem_cons_of_mem _ hm))
    | some rec0 =>
      simp only [scanStartResult]
      rw [if_neg (fun hcond => h rec0 (List.mem_cons_self _ _) hcond.2)]
      exact ih (fun rec hm => h rec (List.mem_cons_of_mem _ hm))

/-- Claim C10: on a call-level success, `_onStartSession`'s extraction of
`result.session.id` and `result.session.passport_url` completes without
its undefined-access branch only when `response.result` is a single
record carrying a `session` field or an array containing an element whose
`__object` field equals "App.startSession" (that element then also
carrying a `session` field); when the result is an array with no such
tagged element, the scan leaves `result` bound to the whole array and the
handler hits the undefined `session` access. -/
theorem startSession_extraction (s : Session) (r : StartResponse)
    (h : r.success = true) :
    (∀ s', onStartSession s r = some s' →
      (∃ rec, r.result = StartResult.single rec ∧ rec.session ≠ none) ∨
      (∃ recs rec, r.result = StartResult.array recs ∧ some rec ∈ recs ∧
        rec.objectTag = some "App.startSession" ∧ rec.session ≠ none)) ∧
    (∀ recs, r.result = StartResult.array recs →
      (∀ rec, some rec ∈ recs →
        rec.objectTag ≠ some "App.startSession") →
      onStartSession s r = none) := by
  constructor
  · intro s' hsome
    unfold onStartSession at hsome
    rw [if_pos h] at hsome
    cases hsel : selectStartRecord r.result with
    | none => rw [hsel] at hsome; cases hsome
    | some rec =>
      rw [hsel] at hsome
      dsimp only at hsome
      cases hpay : rec.session with
      | none => rw [hpay] at hsome; cases hsome
      | some payload =>
        cases hres : r.result with
        | single rec2 =>
          left
          rw [hres] at hsel
          simp only [selectStartRecord] at hsel
          cases hsel
          exact ⟨rec, rfl, by rw [hpay]; exact Option.noConfusion⟩
        | array recs =>
          right
          rw [hres] at hsel
          simp only [selectStartRecord] at hsel
          obtain ⟨hmem, htag⟩ := scanStartResult_mem recs rec hsel
          exact ⟨recs, rec, rfl, hmem, htag,
                 by rw [hpay]; exact Option.noConfusion⟩
  · intro recs hres hnone
    unfold onStartSession
    rw [if_pos h, hres]
    simp only [selectStartRecord, scanStartResult_eq_none recs hnone]

/-- Witness for `startSession_extraction`: a successful extraction from a
tagged array element satisfies the precondition, and an array holding
only a null entry and a differently tagged record makes the handler
throw. -/
theorem startSession_extraction_witness :
    ((∃ rec, (StartResult.array
        [none, some { objectTag := some "App.startSession",
                      session := some { id := some "i",
                                        passport_url := some "p" } }])
          = StartResult.single rec ∧ rec.session ≠ none) ∨
     (∃ recs rec, (StartResult.array
        [none, some { objectTag := some "App.startSession",
                      session := some { id := some "i",
                                        passport_url := some "p" } }])
          = StartResult.array recs ∧ some rec ∈ recs ∧
        rec.objectTag = some "App.startSession" ∧ rec.session ≠ none)) ∧
    onStartSession (initSession 0 true)
      { success := true,
        result := StartResult.array
          [none, some { objectTag := some "Other", session := none }] }
      = none := by
  constructor
  · exact (startSession_extraction (initSession 0 true)
      { success := true,
        result := StartResult.array
          [none, some { objectTag := some "App.startSession",
                        session := some { id := some "i",
                                          passport_url := some "p" } }] }
      rfl).1
      { initSession 0 true with
          id := some "i", passport_url := some "p",
          status := SessionState.LOGIN_REQUIRED, mode := Mode.wait }
      (by decide)
  · refine (startSession_extraction (initSession 0 true)
      { success := true,
        result := StartResult.array
          [none, some { objectTag := some "Other", session := none }] }
      rfl).2 _ rfl ?_
    intro rec hm
    simp only [List.mem_cons, List.not_mem_nil, or_false] at hm
    rcases hm with hm | hm
    · exact Option.noConfusion hm
    · cases Option.some.inj hm
      decide

end Ngio
